import Mathlib

/-!
Verification of the connection-resilience and request-serving layer of the
WhatsApp image-storage bot.

The definitions below are shallow embeddings of the JavaScript source:

- `connectDB`, `callN`, `connectDB_resolve`: the de-duplicated lazy MongoDB
  connection manager of `src/view.js` (`isConnected` / `connectionPromise`
  module state; `src/unnamed/part_001` has the same de-duplication logic).
- `connectDB_basic`: the simpler variant in `src/unnamed/part_000`, whose
  `try/catch` logs a connection error without rethrowing.
- `getCachedData` / `setCachedData`: the in-process TTL cache
  (`cache` Map, `CACHE_TTL`) of `src/view.js` and `src/unnamed/part_001`.
- `processMessage` / `processUpsert`: the `messages.upsert` handler of
  `src/index.js` (image filter, field extraction, save, catch-block
  notification). The results of the external async calls
  (`downloadMediaMessage`, `image.save()`, `sock.sendMessage`) are passed in
  as `SessionEffects`, and the handler outcome records whether an error
  escaped the handler (`HandlerResult.escalated`).
- `handleConnectionUpdate` / `stepCtrl` / `runCtrl`: the `connection.update`
  handler of `src/index.js` (reconnect unless the close reason is
  `DisconnectReason.loggedOut`); once no reconnect is issued the socket is
  gone, so a halted controller produces no further attempts.
- `sortDesc` / `listPage`: the paginated listing query of
  `src/unnamed/part_001` (`Image.find().sort({timestamp:-1}).skip.limit`).
- `getImageRoute` / `getImagesRoute`: the cached read routes
  `GET /api/image/:id` and `GET /api/images` of `src/view.js` /
  `src/unnamed/part_001`; `connOK` is the outcome of `await connectDB()`.
-/

namespace BotImages

/-! ## Connection manager state (src/view.js lines 39-68) -/

/-- Module-level connection state of `src/view.js`: `isConnected` and
`connectionPromise`. Attempts are numbered so they can be counted;
`attemptsStarted` counts invocations of `mongoose.connect`. -/
structure ConnState where
  isConnected : Bool
  connectionPromise : Option Nat
  nextAttemptId : Nat
  attemptsStarted : Nat
deriving DecidableEq

/-- What a single `connectDB()` call returns to its caller: an immediate
success (already connected), or the promise of attempt `i`. -/
inductive CallResult where
  | immediateSuccess : CallResult
  | awaits : Nat → CallResult
deriving DecidableEq

/-- One `connectDB()` call (src/view.js lines 42-68): return if connected,
return the in-flight promise if one exists, otherwise start a new attempt. -/
def connectDB (s : ConnState) : ConnState × CallResult :=
  if s.isConnected then (s, CallResult.immediateSuccess)
  else
    match s.connectionPromise with
    | some p => (s, CallResult.awaits p)
    | none =>
      ({ s with
          connectionPromise := some s.nextAttemptId
          nextAttemptId := s.nextAttemptId + 1
          attemptsStarted := s.attemptsStarted + 1 },
       CallResult.awaits s.nextAttemptId)

/-- `n` concurrent `connectDB()` calls: no interleaved resolution, since the
synchronous body of `connectDB` runs atomically on the event loop. -/
def callN : Nat → ConnState → ConnState × List CallResult
  | 0, s => (s, [])
  | n + 1, s =>
    let r := connectDB s
    let rest := callN n r.1
    (rest.1, r.2 :: rest.2)

/-- The value a caller observes, given its call result and the map from
attempt ids to attempt outcomes (promise resolution). -/
def awaitedOutcome (r : CallResult) (outcome : Nat → Except String Unit) :
    Except String Unit :=
  match r with
  | CallResult.immediateSuccess => Except.ok ()
  | CallResult.awaits i => outcome i

/-- Resolution of the in-flight attempt: the `.then`/`.catch` continuations of
`src/view.js` lines 55-65. Success sets `isConnected` and resolves with
`true`; failure resets `isConnected`, clears `connectionPromise`, and
rethrows the error. -/
def connectDB_resolve (s : ConnState) (outcome : Except String Unit) :
    ConnState × Except String Bool :=
  match outcome with
  | Except.ok _ => ({ s with isConnected := true }, Except.ok true)
  | Except.error e =>
      ({ s with isConnected := false, connectionPromise := none },
       Except.error e)

/-- The `connectDB` of `src/unnamed/part_000` lines 40-56: no in-flight
marker; the `catch` block logs the connection error and falls through, so
the function returns normally either way. -/
def connectDB_basic (isConnected : Bool) (attemptResult : Except String Unit) :
    Bool × Except String Unit :=
  if isConnected then (isConnected, Except.ok ())
  else
    match attemptResult with
    | Except.ok _ => (true, Except.ok ())
    | Except.error _ => (isConnected, Except.ok ())

/-! ## TTL cache (src/view.js lines 79-96, src/unnamed/part_001 lines 230-249) -/

/-- A cache entry: the stored `data` and the `timestamp` recorded by
`setCachedData`. -/
structure Cached (V : Type) where
  data : V
  timestamp : Nat
deriving DecidableEq

/-- `getCachedData(key)`: return the entry if present and
`Date.now() - cached.timestamp < CACHE_TTL`, else `null`. -/
def getCachedData {V : Type} (ttl : Nat) (cache : String → Option (Cached V))
    (now : Nat) (key : String) : Option V :=
  match cache key with
  | some c => if now - c.timestamp < ttl then some c.data else none
  | none => none

/-- `setCachedData(key, data)`: `cache.set(key, {data, timestamp: Date.now()})`,
unconditionally overwriting. -/
def setCachedData {V : Type} (cache : String → Option (Cached V))
    (now : Nat) (key : String) (data : V) : String → Option (Cached V) :=
  fun k => if k = key then some { data := data, timestamp := now } else cache k

/-- `CACHE_TTL` of `src/view.js`: 5 minutes in milliseconds. -/
def CACHE_TTL : Nat := 5 * 60 * 1000

/-- `CACHE_TTL` of `src/unnamed/part_001`: reduced to 1 minute. -/
def CACHE_TTL_testing : Nat := 1 * 60 * 1000

end BotImages

namespace BotImages

/-! ## Messaging session (src/index.js) -/

/-- `m.key` of an inbound message: `id` and `remoteJid`. -/
structure MsgKey where
  id : String
  remoteJid : String
deriving DecidableEq

/-- The content object stored under a message-type key: the fields the
handler reads (`mimetype`, `caption`), either of which may be absent. -/
structure MsgContent where
  mimetype : Option String
  caption : Option String
deriving DecidableEq

/-- An inbound message: `m.key` plus `m.message`, which is `null`/absent or a
JS object modelled as its ordered key-value pairs (the handler inspects
`Object.keys(m.message)[0]`). -/
structure WAMessage where
  key : MsgKey
  message : Option (List (String × MsgContent))
deriving DecidableEq

/-- `Object.keys(m.message)[0]`, guarded by the `if (!m.message) return`. -/
def messageType (m : WAMessage) : Option String :=
  match m.message with
  | none => none
  | some content => content.head?.map Prod.fst

/-- JavaScript `x || d` for an optional string: absent or empty falls back to
the default. -/
def jsOrDefault (s : Option String) (d : String) : String :=
  match s with
  | some v => if v = "" then d else v
  | none => d

/-- The persisted unit (src/models/Image.js): schema fields of `Image`. -/
structure ImageRecord where
  messageId : String
  sender : String
  imageData : List Nat
  contentType : String
  caption : String
  timestamp : Nat
deriving DecidableEq

/-- Outcomes of the three external async calls the `messages.upsert` handler
performs: `downloadMediaMessage`, `image.save()`, `sock.sendMessage`. -/
structure SessionEffects where
  download : Except String (List Nat)
  save : Except String Unit
  send : Except String Unit

/-- Observable outcome of one run of the `messages.upsert` handler.
`escalated e` means the error `e` propagated out of the async handler as an
unhandled rejection. -/
inductive HandlerResult where
  | ignored : HandlerResult
  | savedRecord : ImageRecord → HandlerResult
  | notifiedFailure : String → HandlerResult
  | escalated : String → HandlerResult
deriving DecidableEq

/-- The catch block of the handler (src/index.js lines 100-105): it awaits
`sock.sendMessage(m.key.remoteJid, ...)` with no surrounding try, so a send
failure escapes the handler. -/
def notifyOrEscalate (dest : String) (sendR : Except String Unit) : HandlerResult :=
  match sendR with
  | Except.ok _ => HandlerResult.notifiedFailure dest
  | Except.error e => HandlerResult.escalated e

/-- The body of the `messages.upsert` handler for one message
(src/index.js lines 70-106): filter on the first key of `m.message`,
download, build the `Image` document, save; on any error in the try block,
notify the sender. -/
def processMessage (m : WAMessage) (eff : SessionEffects) (now : Nat) :
    HandlerResult :=
  match m.message with
  | none => HandlerResult.ignored
  | some content =>
    match content with
    | [] => HandlerResult.ignored
    | (ty, mc) :: _ =>
      if ty = "imageMessage" then
        match eff.download with
        | Except.error _ => notifyOrEscalate m.key.remoteJid eff.send
        | Except.ok bytes =>
          match eff.save with
          | Except.ok _ =>
            HandlerResult.savedRecord
              { messageId := m.key.id
                sender := m.key.remoteJid
                imageData := bytes
                contentType := jsOrDefault mc.mimetype "image/jpeg"
                caption := jsOrDefault mc.caption ""
                timestamp := now }
          | Except.error _ => notifyOrEscalate m.key.remoteJid eff.send
      else HandlerResult.ignored

/-- The full `messages.upsert` handler: `const m = messages[0]` — only the
first message of the delivered batch is examined. On an empty batch,
`messages[0]` is `undefined` and reading `.message` throws. -/
def processUpsert (batch : List WAMessage) (eff : SessionEffects) (now : Nat) :
    HandlerResult :=
  match batch with
  | [] => HandlerResult.escalated "TypeError"
  | m :: _ => processMessage m eff now

/-! ## connection.update handler (src/index.js lines 56-68) -/

/-- `DisconnectReason.loggedOut` of the transport library. -/
def loggedOutCode : Nat := 401

/-- A `connection.update` event: the `connection` field and
`lastDisconnect?.error?.output?.statusCode` (absent when any link of the
optional chain is missing). -/
structure UpdateEvent where
  connection : Option String
  statusCode : Option Nat
deriving DecidableEq

/-- What the handler does for one event. -/
inductive CtrlAction where
  | reconnect : CtrlAction
  | terminalHalt : CtrlAction
  | noop : CtrlAction
deriving DecidableEq

/-- The `connection.update` handler: on close, reconnect exactly when
`statusCode !== DisconnectReason.loggedOut`. -/
def handleConnectionUpdate (ev : UpdateEvent) : CtrlAction :=
  if ev.connection = some "close" then
    if ev.statusCode ≠ some loggedOutCode then CtrlAction.reconnect
    else CtrlAction.terminalHalt
  else CtrlAction.noop

/-- Controller liveness: `terminal` once the handler declined to reconnect
after a logged-out close (no new socket is created, so no handler runs
again). -/
inductive CtrlState where
  | running : CtrlState
  | terminal : CtrlState
deriving DecidableEq

/-- One transport event against the controller; the `Bool` records whether a
reconnect attempt (`connectToWhatsApp()`) was issued. -/
def stepCtrl (st : CtrlState) (ev : UpdateEvent) : CtrlState × Bool :=
  match st with
  | CtrlState.terminal => (CtrlState.terminal, false)
  | CtrlState.running =>
    match handleConnectionUpdate ev with
    | CtrlAction.reconnect => (CtrlState.running, true)
    | CtrlAction.terminalHalt => (CtrlState.terminal, false)
    | CtrlAction.noop => (CtrlState.running, false)

/-- A sequence of transport events; returns the final state and the number of
reconnect attempts issued. -/
def runCtrl : CtrlState → List UpdateEvent → CtrlState × Nat
  | st, [] => (st, 0)
  | st, ev :: evs =>
    let s1 := stepCtrl st ev
    let rest := runCtrl s1.1 evs
    (rest.1, (if s1.2 then 1 else 0) + rest.2)

/-! ## Image query service (src/unnamed/part_001 lines 252-308, src/view.js) -/

/-- Timestamp-descending order used by `sort({ timestamp: -1 })`. -/
def tsGE (a b : ImageRecord) : Prop := b.timestamp ≤ a.timestamp

instance : DecidableRel tsGE := fun a b => Nat.decLe b.timestamp a.timestamp

instance : IsTotal ImageRecord tsGE :=
  ⟨fun a b => Nat.le_total b.timestamp a.timestamp⟩

instance : IsTrans ImageRecord tsGE :=
  ⟨fun _ _ _ hab hbc => Nat.le_trans hbc hab⟩

/-- The collection ordered by `timestamp` descending, as produced by
`Image.find().sort({ timestamp: -1 })`. -/
def sortDesc (l : List ImageRecord) : List ImageRecord :=
  List.insertionSort tsGE l

/-- The paginated query of `GET /api/images`:
`skip = (page - 1) * limit`, then `.skip(skip).limit(limit)` on the sorted
collection. -/
def listPage (db : List ImageRecord) (page limit : Nat) : List ImageRecord :=
  ((sortDesc db).drop ((page - 1) * limit)).take limit

/-- The projection cached and served by `GET /api/image/:id`. -/
structure CachedImage where
  contentType : String
  imageData : List Nat
deriving DecidableEq

/-- Response of `GET /api/image/:id`. -/
inductive ImageResponse where
  | okImage : String → List Nat → ImageResponse
  | notFound : ImageResponse
  | serverError : ImageResponse
deriving DecidableEq

/-- `GET /api/image/:id` (src/view.js lines 99-126): cache lookup under
`image_<id>`, then `connectDB` (`connOK` is its outcome; a throw is caught
and mapped to a 500), then `Image.findById`; a miss returns 404 with no
cache write, a hit fills the cache before responding. -/
def getImageRoute (ttl : Nat) (db : String → Option ImageRecord)
    (cache : String → Option (Cached CachedImage)) (now : Nat) (id : String)
    (connOK : Bool) :
    ImageResponse × (String → Option (Cached CachedImage)) :=
  match getCachedData ttl cache now ("image_" ++ id) with
  | some ci => (ImageResponse.okImage ci.contentType ci.imageData, cache)
  | none =>
    if connOK then
      match db id with
      | none => (ImageResponse.notFound, cache)
      | some img =>
        (ImageResponse.okImage img.contentType img.imageData,
         setCachedData cache now ("image_" ++ id)
           { contentType := img.contentType, imageData := img.imageData })
    else (ImageResponse.serverError, cache)

/-- `GET /api/images` (src/unnamed/part_001 lines 282-308): cache lookup
under `images_page_<page>` — the key does not mention `limit` — then the
paginated query, whose result is cached under the same key. `none` stands
for the 500 taken when `connectDB` rejects. -/
def getImagesRoute (ttl : Nat) (db : List ImageRecord)
    (cache : String → Option (Cached (List ImageRecord))) (now : Nat)
    (page limit : Nat) (connOK : Bool) :
    Option (List ImageRecord) × (String → Option (Cached (List ImageRecord))) :=
  match getCachedData ttl cache now ("images_page_" ++ toString page) with
  | some images => (some images, cache)
  | none =>
    if connOK then
      (some (listPage db page limit),
       setCachedData cache now ("images_page_" ++ toString page)
         (listPage db page limit))
    else (none, cache)

/-! ## Concrete sample data for witnesses and counterexamples -/

/-- All three external calls succeed. -/
def sampleEff : SessionEffects :=
  { download := Except.ok [1], save := Except.ok (), send := Except.ok () }

/-- A plain text message (first key `conversation`). -/
def sampleTextMsg : WAMessage :=
  { key := { id := "id1", remoteJid := "jid1" }
    message := some [("conversation", { mimetype := none, caption := none })] }

/-- A video message (first key `videoMessage`). -/
def sampleVideoMsg : WAMessage :=
  { key := { id := "id2", remoteJid := "jid2" }
    message := some [("videoMessage", { mimetype := some "video/mp4", caption := none })] }

/-- An image message with explicit mimetype and caption. -/
def sampleImageMsg : WAMessage :=
  { key := { id := "id3", remoteJid := "jid3" }
    message := some [("imageMessage", { mimetype := some "image/png", caption := some "hi" })] }

/-- Fifteen records with distinct timestamps. -/
def sampleDb : List ImageRecord :=
  (List.range 15).map fun i =>
    { messageId := toString i, sender := "s", imageData := [],
      contentType := "image/jpeg", caption := "", timestamp := i }

/-- An empty image cache. -/
def emptyImageCache : String → Option (Cached CachedImage) := fun _ => none

/-- An empty page cache. -/
def emptyPageCache : String → Option (Cached (List ImageRecord)) := fun _ => none

/-- An empty id-indexed store. -/
def emptyDb : String → Option ImageRecord := fun _ => none

/-- A concrete stored record. -/
def sampleRecord : ImageRecord :=
  { messageId := "m1", sender := "s1", imageData := [1, 2, 3],
    contentType := "image/png", caption := "", timestamp := 7 }

/-! ## Helper lemmas -/

theorem connectDB_connected (s : ConnState) (h : s.isConnected = true) :
    connectDB s = (s, CallResult.immediateSuccess) := by
  simp [connectDB, h]

theorem connectDB_inflight (s : ConnState) (p : Nat)
    (h1 : s.isConnected = false) (h2 : s.connectionPromise = some p) :
    connectDB s = (s, CallResult.awaits p) := by
  simp [connectDB, h1, h2]

theorem callN_inflight (n : Nat) (s : ConnState) (p : Nat)
    (h1 : s.isConnected = false) (h2 : s.connectionPromise = some p) :
    callN n s = (s, List.replicate n (CallResult.awaits p)) := by
  induction n with
  | zero => simp [callN]
  | succ k ih =>
    simp [callN, connectDB_inflight s p h1 h2, ih, List.replicate]

/-! ## Claims -/

/-- Claim C1: while a connection attempt is in flight, every further
`connectDB()` call awaits that same attempt instead of starting a second
one, so `n + 1` concurrent calls from the disconnected idle state start
exactly one underlying attempt and every caller awaits the same attempt
(hence all resolve with that attempt's one outcome); calling while already
connected returns success immediately with no state change. -/
theorem connectDB_dedup :
    (∀ s : ConnState, s.isConnected = true →
      connectDB s = (s, CallResult.immediateSuccess)) ∧
    (∀ (s0 : ConnState) (n : Nat),
      s0.isConnected = false → s0.connectionPromise = none →
      (callN (n + 1) s0).1.attemptsStarted = s0.attemptsStarted + 1 ∧
      (callN (n + 1) s0).2
        = List.replicate (n + 1) (CallResult.awaits s0.nextAttemptId) ∧
      ∀ (f : Nat → Except String Unit) (r : CallResult),
        r ∈ (callN (n + 1) s0).2 → awaitedOutcome r f = f s0.nextAttemptId) := by
  constructor
  · exact connectDB_connected
  · intro s0 n h1 h2
    have hstep : connectDB s0
        = ({ s0 with
              connectionPromise := some s0.nextAttemptId
              nextAttemptId := s0.nextAttemptId + 1
              attemptsStarted := s0.attemptsStarted + 1 },
           CallResult.awaits s0.nextAttemptId) := by
      simp [connectDB, h1, h2]
    have hrest := callN_inflight n
      { s0 with
          connectionPromise := some s0.nextAttemptId
          nextAttemptId := s0.nextAttemptId + 1
          attemptsStarted := s0.attemptsStarted + 1 }
      s0.nextAttemptId (by simpa using h1) rfl
    have hcall : callN (n + 1) s0
        = ({ s0 with
              connectionPromise := some s0.nextAttemptId
              nextAttemptId := s0.nextAttemptId + 1
              attemptsStarted := s0.attemptsStarted + 1 },
           CallResult.awaits s0.nextAttemptId
             :: List.replicate n (CallResult.awaits s0.nextAttemptId)) := by
      simp [callN, hstep, hrest]
    refine ⟨by rw [hcall], by rw [hcall]; rfl, ?_⟩
    intro f r hr
    rw [hcall] at hr
    have : r = CallResult.awaits s0.nextAttemptId := by
      rcases List.mem_cons.mp hr with hr | hr
      · exact hr
      · exact List.eq_of_mem_replicate hr
    rw [this]
    rfl

/-- Witness for C1 at a concrete input: three concurrent calls from the
disconnected idle state start exactly one attempt, and all three await
attempt 0. -/
theorem connectDB_dedup_witness :
    (callN 3 { isConnected := false, connectionPromise := none,
               nextAttemptId := 0, attemptsStarted := 0 }).1.attemptsStarted = 1 ∧
    (callN 3 { isConnected := false, connectionPromise := none,
               nextAttemptId := 0, attemptsStarted := 0 }).2
      = List.replicate 3 (CallResult.awaits 0) := by
  have h := connectDB_dedup.2
    { isConnected := false, connectionPromise := none,
      nextAttemptId := 0, attemptsStarted := 0 } 2 rfl rfl
  exact ⟨h.1, h.2.1⟩

/-- Claim C2: immediately after `setCachedData(key, v)` at time `t`, a
`getCachedData(key)` at time `now` returns `v` exactly while `now - t` is
strictly below the TTL and behaves as absent afterwards; and `set`
unconditionally overwrites any existing entry, resetting the stored
timestamp to the write time. -/
theorem cache_set_get_ttl :
    ∀ (V : Type) (ttl : Nat) (cache : String → Option (Cached V))
      (t now : Nat) (key : String) (v : V),
      getCachedData ttl (setCachedData cache t key v) now key
        = (if now - t < ttl then some v else none) ∧
      setCachedData cache t key v key = some { data := v, timestamp := t } := by
  intro V ttl cache t now key v
  constructor
  · simp [getCachedData, setCachedData]
  · simp [setCachedData]

/-- Counterexample for C3 as stated: in the `connectDB` of
`src/unnamed/part_000`, a failed attempt is caught and only logged, so the
caller receives a normal (successful) return rather than the connection
error — the error is silently swallowed. -/
theorem connectDB_swallow_counterexample :
    connectDB_basic false (Except.error "refused") = (false, Except.ok ()) ∧
    (connectDB_basic false (Except.error "refused")).2
      ≠ Except.error "refused" := by
  constructor
  · rfl
  · intro h
    exact Except.noConfusion h

/-- Claim C3 (amended): in the de-duplicating connection manager
(`src/view.js`, `src/unnamed/part_001`) a failed attempt resets
`isConnected`, clears `connectionPromise` — so the next `connectDB()` call
starts a fresh attempt — and rethrows the error, which every caller awaiting
the attempt receives; in the `src/unnamed/part_000` variant, however, the
connection error is caught and logged without rethrowing, so there the
caller observes a normal return. -/
theorem connectDB_failure_semantics :
    (∀ (s : ConnState) (e : String),
      (connectDB_resolve s (Except.error e)).1.isConnected = false ∧
      (connectDB_resolve s (Except.error e)).1.connectionPromise = none ∧
      (connectDB_resolve s (Except.error e)).2 = Except.error e ∧
      (connectDB (connectDB_resolve s (Except.error e)).1).1.attemptsStarted
        = s.attemptsStarted + 1) ∧
    (∀ e : String, (connectDB_basic false (Except.error e)).2 = Except.ok ()) := by
  constructor
  · intro s e
    refine ⟨rfl, rfl, rfl, ?_⟩
    simp [connectDB_resolve, connectDB]
  · intro e
    rfl

/-- Helper: a message whose first content key is not `imageMessage` (or that
has no content at all) is a no-op for the upsert handler. -/
theorem processMessage_not_image (m : WAMessage) (eff : SessionEffects)
    (now : Nat) (h : messageType m ≠ some "imageMessage") :
    processMessage m eff now = HandlerResult.ignored := by
  rcases hm : m.message with _ | content
  · simp [processMessage, hm]
  · rcases content with _ | ⟨⟨ty, mc⟩, rest⟩
    · simp [processMessage, hm]
    · have hty : ¬ ty = "imageMessage" := by
        intro hc
        exact h (by simp [messageType, hm, hc])
      simp [processMessage, hm, hty]

/-- Claim C4: only events whose message carries an image payload (first
content key `imageMessage`) are processed; the persisted record takes
`messageId`, `sender`, `imageData`, `contentType` and `caption` from the
event's id, sender, downloaded bytes, mimetype and caption, with
`contentType` defaulting to `image/jpeg` and `caption` to the empty string
when absent; every other message type is a no-op. -/
theorem upsert_image_filter_fields :
    (∀ (k : MsgKey) (mc : MsgContent) (rest : List (String × MsgContent))
       (bytes : List Nat) (sendR : Except String Unit) (now : Nat),
      processMessage { key := k, message := some (("imageMessage", mc) :: rest) }
        { download := Except.ok bytes, save := Except.ok (), send := sendR } now
        = HandlerResult.savedRecord
            { messageId := k.id, sender := k.remoteJid, imageData := bytes,
              contentType := jsOrDefault mc.mimetype "image/jpeg",
              caption := jsOrDefault mc.caption "", timestamp := now }) ∧
    (∀ (k : MsgKey) (rest : List (String × MsgContent)) (bytes : List Nat)
       (sendR : Except String Unit) (now : Nat),
      processMessage
        { key := k,
          message := some (("imageMessage",
            { mimetype := none, caption := none }) :: rest) }
        { download := Except.ok bytes, save := Except.ok (), send := sendR } now
        = HandlerResult.savedRecord
            { messageId := k.id, sender := k.remoteJid, imageData := bytes,
              contentType := "image/jpeg", caption := "", timestamp := now }) ∧
    (∀ (m : WAMessage) (eff : SessionEffects) (now : Nat),
      messageType m ≠ some "imageMessage" →
      processMessage m eff now = HandlerResult.ignored) := by
  refine ⟨?_, ?_, ?_⟩
  · intro k mc rest bytes sendR now
    simp [processMessage]
  · intro k rest bytes sendR now
    simp [processMessage, jsOrDefault]
  · exact processMessage_not_image

/-- Witness for C4 at a concrete input: a video message is not processed. -/
theorem upsert_image_filter_fields_witness :
    messageType sampleVideoMsg ≠ some "imageMessage" ∧
    processMessage sampleVideoMsg sampleEff 0 = HandlerResult.ignored :=
  ⟨by decide, upsert_image_filter_fields.2.2 sampleVideoMsg sampleEff 0 (by decide)⟩

/-- Counterexample for C5 as stated: when both the save and the subsequent
notification send fail, the send error propagates out of the event handler
(the `await sock.sendMessage` in the catch block has no surrounding try), so
the notification failure IS escalated further. -/
theorem notification_failure_escalates_counterexample :
    processMessage sampleImageMsg
      { download := Except.ok [1, 2], save := Except.error "duplicate key",
        send := Except.error "send failed" } 0
      = HandlerResult.escalated "send failed" ∧
    HandlerResult.escalated "send failed"
      ≠ HandlerResult.notifiedFailure sampleImageMsg.key.remoteJid := by
  constructor
  · rfl
  · intro h
    exact HandlerResult.noConfusion h

/-- Claim C5 (amended): on persistence failure (any save error, including
duplicate-identifier conflicts) the handler sends an error notification to
the sender; if the send succeeds the failure is contained in the handler,
but a failure to send the notification is not caught and propagates out of
the event handler. -/
theorem notification_failure_semantics :
    (∀ (k : MsgKey) (mc : MsgContent) (rest : List (String × MsgContent))
       (bytes : List Nat) (e : String) (now : Nat),
      processMessage { key := k, message := some (("imageMessage", mc) :: rest) }
        { download := Except.ok bytes, save := Except.error e,
          send := Except.ok () } now
        = HandlerResult.notifiedFailure k.remoteJid) ∧
    (∀ (k : MsgKey) (mc : MsgContent) (rest : List (String × MsgContent))
       (bytes : List Nat) (e se : String) (now : Nat),
      processMessage { key := k, message := some (("imageMessage", mc) :: rest) }
        { download := Except.ok bytes, save := Except.error e,
          send := Except.error se } now
        = HandlerResult.escalated se) := by
  constructor
  · intro k mc rest bytes e now
    simp [processMessage, notifyOrEscalate]
  · intro k mc rest bytes e se now
    simp [processMessage, notifyOrEscalate]

/-- Helper: a halted controller issues no reconnect attempts, whatever events
arrive. -/
theorem runCtrl_terminal (evs : List UpdateEvent) :
    (runCtrl CtrlState.terminal evs).2 = 0 := by
  induction evs with
  | nil => rfl
  | cons ev rest ih => simp [runCtrl, stepCtrl, ih]

/-- Claim C6: a close with any reason other than `loggedOut` triggers an
immediate reconnect attempt; a close with reason `loggedOut` halts the
controller, and from that point on no further reconnect attempts are issued
regardless of subsequent events. -/
theorem logout_terminal_reconnect :
    (∀ sc : Option Nat, sc ≠ some loggedOutCode →
      stepCtrl CtrlState.running { connection := some "close", statusCode := sc }
        = (CtrlState.running, true)) ∧
    (stepCtrl CtrlState.running
        { connection := some "close", statusCode := some loggedOutCode }
      = (CtrlState.terminal, false)) ∧
    (∀ evs : List UpdateEvent,
      (runCtrl CtrlState.running
        ({ connection := some "close", statusCode := some loggedOutCode }
          :: evs)).2 = 0) := by
  refine ⟨?_, ?_, ?_⟩
  · intro sc h
    simp [stepCtrl, handleConnectionUpdate, h]
  · simp [stepCtrl, handleConnectionUpdate]
  · intro evs
    simp [runCtrl, stepCtrl, handleConnectionUpdate, runCtrl_terminal]

/-- Witness for C6 at concrete inputs: a close with status 428 reconnects
immediately, and after a logged-out close a further recoverable close
produces no reconnect attempt. -/
theorem logout_terminal_reconnect_witness :
    stepCtrl CtrlState.running { connection := some "close", statusCode := some 428 }
      = (CtrlState.running, true) ∧
    (runCtrl CtrlState.running
      ({ connection := some "close", statusCode := some loggedOutCode }
        :: [{ connection := some "close", statusCode := some 428 }])).2 = 0 :=
  ⟨logout_terminal_reconnect.1 (some 428) (by decide),
   logout_terminal_reconnect.2.2
     [{ connection := some "close", statusCode := some 428 }]⟩

/-- Claim C10: the `messages.upsert` handler examines only the first message
of the delivered batch — its outcome is exactly that of processing the head,
independent of the rest — so a non-image head means the whole batch is a
no-op even when later positions carry images. -/
theorem upsert_first_message_only :
    (∀ (m : WAMessage) (rest : List WAMessage) (eff : SessionEffects) (now : Nat),
      processUpsert (m :: rest) eff now = processMessage m eff now) ∧
    (∀ (m : WAMessage) (rest : List WAMessage) (eff : SessionEffects) (now : Nat),
      messageType m ≠ some "imageMessage" →
      processUpsert (m :: rest) eff now = HandlerResult.ignored) := by
  constructor
  · intro m rest eff now
    rfl
  · intro m rest eff now h
    exact processMessage_not_image m eff now h

/-- Witness for C10 at a concrete input: a batch whose head is a text message
is ignored even though its second element is an image message. -/
theorem upsert_first_message_only_witness :
    messageType sampleTextMsg ≠ some "imageMessage" ∧
    processUpsert [sampleTextMsg, sampleImageMsg] sampleEff 0
      = HandlerResult.ignored :=
  ⟨by decide,
   upsert_first_message_only.2 sampleTextMsg [sampleImageMsg] sampleEff 0 (by decide)⟩

/-- Claim C7: when the cache has no entry for the requested id, a lookup of
an identifier absent from the database returns 404 and leaves the cache
untouched (negative results are never cached), so a record inserted under
that id afterwards is served by a subsequent lookup at any later time; and a
database hit writes the `contentType`/`imageData` projection into the cache,
stamped with the current time, before the record is returned. -/
theorem getById_notfound_nocache :
    ∀ (ttl : Nat) (db : String → Option ImageRecord)
      (cache : String → Option (Cached CachedImage)) (now : Nat) (id : String),
      cache ("image_" ++ id) = none →
      ((db id = none →
        getImageRoute ttl db cache now id true = (ImageResponse.notFound, cache)) ∧
      (∀ r : ImageRecord, db id = some r →
        (getImageRoute ttl db cache now id true).1
          = ImageResponse.okImage r.contentType r.imageData ∧
        (getImageRoute ttl db cache now id true).2 ("image_" ++ id)
          = some { data := { contentType := r.contentType,
                             imageData := r.imageData },
                   timestamp := now }) ∧
      (∀ (r : ImageRecord) (later : Nat), db id = none →
        (getImageRoute ttl (fun k => if k = id then some r else db k)
           ((getImageRoute ttl db cache now id true).2) later id true).1
          = ImageResponse.okImage r.contentType r.imageData)) := by
  intro ttl db cache now id hc
  have hmiss : ∀ t : Nat, getCachedData ttl cache t ("image_" ++ id) = none := by
    intro t
    simp [getCachedData, hc]
  refine ⟨?_, ?_, ?_⟩
  · intro hdb
    simp [getImageRoute, hmiss, hdb]
  · intro r hdb
    constructor
    · simp [getImageRoute, hmiss, hdb]
    · simp [getImageRoute, hmiss, hdb, setCachedData]
  · intro r later hdb
    have h404 : getImageRoute ttl db cache now id true
        = (ImageResponse.notFound, cache) := by
      simp [getImageRoute, hmiss, hdb]
    rw [h404]
    simp [getImageRoute, hmiss]

/-- Witness for C7 at concrete inputs: with an empty cache and empty store,
looking up id `a` yields 404 and the untouched cache; after inserting
`sampleRecord` under `a`, a lookup 50 ms later returns it. -/
theorem getById_notfound_nocache_witness :
    getImageRoute CACHE_TTL emptyDb emptyImageCache 0 "a" true
      = (ImageResponse.notFound, emptyImageCache) ∧
    (getImageRoute CACHE_TTL (fun k => if k = "a" then some sampleRecord else emptyDb k)
       (getImageRoute CACHE_TTL emptyDb emptyImageCache 0 "a" true).2 50 "a" true).1
      = ImageResponse.okImage "image/png" [1, 2, 3] := by
  have h := getById_notfound_nocache CACHE_TTL emptyDb emptyImageCache 0 "a" rfl
  refine ⟨h.1 rfl, ?_⟩
  have h3 := h.2.2 sampleRecord 50 rfl
  simpa [sampleRecord] using h3

theorem sortDesc_length (l : List ImageRecord) : (sortDesc l).length = l.length :=
  (List.perm_insertionSort tsGE l).length_eq

theorem sortDesc_sorted (l : List ImageRecord) : List.Sorted tsGE (sortDesc l) :=
  List.sorted_insertionSort tsGE l

/-- Claim C8: over a store of 15 records, page 1 with limit 10 yields 10
records and page 2 yields the remaining 5; both pages are ordered by
timestamp descending; their concatenation is exactly the timestamp-descending
ordering of the store (no overlap, no gap), which is a permutation of the
store; and in general page `p+1` with limit `n` consists of the `n` records
of the descending order that follow the first `p * n`. -/
theorem listPage_pagination :
    ∀ db : List ImageRecord, db.length = 15 →
      (listPage db 1 10).length = 10 ∧
      (listPage db 2 10).length = 5 ∧
      listPage db 1 10 ++ listPage db 2 10 = sortDesc db ∧
      List.Sorted tsGE (listPage db 1 10) ∧
      List.Sorted tsGE (listPage db 2 10) ∧
      (sortDesc db).Perm db ∧
      (∀ p n : Nat,
        listPage db (p + 1) n ++ (sortDesc db).drop ((p + 1) * n)
          = (sortDesc db).drop (p * n)) := by
  intro db h
  have hlen : (sortDesc db).length = 15 := by rw [sortDesc_length, h]
  have hp1 : listPage db 1 10 = (sortDesc db).take 10 := by
    simp [listPage]
  have hp2 : listPage db 2 10 = ((sortDesc db).drop 10).take 10 := by
    simp [listPage]
  have hd10 : ((sortDesc db).drop 10).length = 5 := by
    rw [List.length_drop, hlen]
  have hp2' : listPage db 2 10 = (sortDesc db).drop 10 := by
    rw [hp2]
    exact List.take_of_length_le (by rw [hd10]; omega)
  refine ⟨?_, ?_, ?_, ?_, ?_, ?_, ?_⟩
  · rw [hp1, List.length_take, hlen]
    decide
  · rw [hp2', hd10]
  · rw [hp1, hp2']
    exact List.take_append_drop 10 (sortDesc db)
  · rw [hp1]
    exact (sortDesc_sorted db).sublist (List.take_sublist 10 _)
  · rw [hp2']
    exact (sortDesc_sorted db).sublist (List.drop_sublist 10 _)
  · exact List.perm_insertionSort tsGE db
  · intro p n
    have hidx : (p + 1) * n = p * n + n := by ring
    show ((sortDesc db).drop (p * n)).take n ++ (sortDesc db).drop ((p + 1) * n)
        = (sortDesc db).drop (p * n)
    rw [hidx, ← List.drop_drop]
    exact List.take_append_drop n _

/-- Witness for C8 at a concrete input: the 15-record sample store pages as
10 then 5. -/
theorem listPage_pagination_witness :
    (listPage sampleDb 1 10).length = 10 ∧ (listPage sampleDb 2 10).length = 5 := by
  have h := listPage_pagination sampleDb (by decide)
  exact ⟨h.1, h.2.1⟩

/-- Counterexample for C9 as stated: the listing cache key is
`images_page_<page>` with no mention of the page size, so a request for
page 1 with limit 20 issued within the TTL after a request for page 1 with
limit 10 is answered from the limit-10 cache entry: the two page sizes share
one cache entry. -/
theorem pageCache_shared_counterexample :
    (getImagesRoute CACHE_TTL_testing sampleDb
       (getImagesRoute CACHE_TTL_testing sampleDb emptyPageCache 0 1 10 true).2
       1000 1 20 true).1 = some (listPage sampleDb 1 10) ∧
    (listPage sampleDb 1 10).length = 10 ∧
    (listPage sampleDb 1 20).length = 15 ∧
    listPage sampleDb 1 10 ≠ listPage sampleDb 1 20 := by
  refine ⟨?_, ?_, ?_, ?_⟩ <;> decide

/-- Claim C9 (amended): the cache key for the paginated listing is scoped to
the page number only, not the page size: whenever a first request for a page
fills the cache, a second request for the same page within the TTL returns
the first request's data whatever limit it asks for. -/
theorem pageCacheKey_page_only :
    ∀ (ttl : Nat) (db : List ImageRecord)
      (cache : String → Option (Cached (List ImageRecord)))
      (now later page l1 l2 : Nat),
      getCachedData ttl cache now ("images_page_" ++ toString page) = none →
      later - now < ttl →
      (getImagesRoute ttl db
         ((getImagesRoute ttl db cache now page l1 true).2) later page l2 true).1
        = some (listPage db page l1) := by
  intro ttl db cache now later page l1 l2 h1 h2
  have hfill : getImagesRoute ttl db cache now page l1 true
      = (some (listPage db page l1),
         setCachedData cache now ("images_page_" ++ toString page)
           (listPage db page l1)) := by
    simp [getImagesRoute, h1]
  rw [hfill]
  simp [getImagesRoute, getCachedData, setCachedData, h2]

/-- Witness for C9 (amended) at concrete inputs: after a (page 1, limit 10)
request, a (page 1, limit 25) request 5 seconds later returns the cached
limit-10 page. -/
theorem pageCacheKey_page_only_witness :
    (getImagesRoute CACHE_TTL_testing sampleDb
       (getImagesRoute CACHE_TTL_testing sampleDb emptyPageCache 0 1 10 true).2
       5000 1 25 true).1 = some (listPage sampleDb 1 10) :=
  pageCacheKey_page_only CACHE_TTL_testing sampleDb emptyPageCache 0 5000 1 10 25
    rfl (by decide)

end BotImages
